import Mathlib

/-!
Verification of the Cerberus-V dual-layer packet filter.

Shallow embedding of the four C source files:
  src/ebpf/xdp_filter.c          (kernel XDP classifier)
  src/vpp/plugins/ebpf_classify.c (host-stack classifier node)
  src/vpp/plugins/hello_acl.c     (hello-acl node)
  src/userspace/af_xdp_loader.c   (AF_XDP drainer and frame allocator)

Frames and buffers are modelled as lists of bytes (`List Nat`, each entry a
byte value); machine-word arithmetic that can wrap (u64 counters and byte
totals) is taken modulo 2^64; BPF maps are modelled as partial functions.
-/

namespace CerberusV

/-- Read one byte of a frame at offset i; a read past the end yields 0. -/
def byteAt (l : List Nat) (i : Nat) : Nat := l.getD i 0

/-- Read a 16-bit big-endian (network order) value at offset i. -/
def be16 (l : List Nat) (i : Nat) : Nat := byteAt l i * 256 + byteAt l (i + 1)

/-- Read a 32-bit big-endian (network order) value at offset i. -/
def be32 (l : List Nat) (i : Nat) : Nat :=
  ((byteAt l i * 256 + byteAt l (i + 1)) * 256 + byteAt l (i + 2)) * 256 + byteAt l (i + 3)

/-- Modulus of unsigned 64-bit machine arithmetic. -/
def U64_MOD : Nat := 2 ^ 64

namespace Xdp

/-! Embedding of src/ebpf/xdp_filter.c. -/

/-- Kernel XDP action code XDP_ABORTED. -/
def XDP_ABORTED : Nat := 0

/-- Kernel XDP action code XDP_DROP. -/
def XDP_DROP : Nat := 1

/-- Kernel XDP action code XDP_PASS. -/
def XDP_PASS : Nat := 2

/-- Kernel XDP action code XDP_REDIRECT. -/
def XDP_REDIRECT : Nat := 4

/-- Ethertype for IPv4 (ETH_P_IP). -/
def ETH_P_IP : Nat := 0x0800

/-- IP protocol number for ICMP. -/
def IPPROTO_ICMP : Nat := 1

/-- IP protocol number for TCP. -/
def IPPROTO_TCP : Nat := 6

/-- Index of the PASS counter in stats_map (enum stats_key). -/
def STAT_PASS : Nat := 0

/-- Index of the DROP counter in stats_map. -/
def STAT_DROP : Nat := 1

/-- Index of the REDIRECT counter in stats_map. -/
def STAT_REDIRECT : Nat := 2

/-- Index of the ERROR counter in stats_map. -/
def STAT_ERROR : Nat := 3

/-- update_stats (xdp_filter.c lines 37-42): bpf_map_lookup_elem on the
4-entry per-CPU array succeeds exactly for key < 4, in which case the u64
counter is atomically incremented (wrapping at 2^64); otherwise no-op. -/
def update_stats (stats : Nat → Nat) (key : Nat) : Nat → Nat :=
  if key < 4 then
    fun k => if k = key then (stats k + 1) % U64_MOD else stats k
  else stats

/-- Input metadata of one XDP invocation (struct xdp_md): the frame bytes
between data and data_end, and the receive-queue index of the frame. -/
structure XdpMd where
  frame : List Nat
  rx_queue_index : Nat

/-- Result of one xdp_firewall run: the action returned to the driver, the
stats map after the run, and the xsk_map key passed to bpf_redirect_map when
a redirect was issued (none when no redirect call was made). -/
structure XdpOut where
  action : Nat
  stats : Nat → Nat
  redirected : Option Nat

/-- bpf_redirect_map on xsk_map with flags 0: XDP_REDIRECT when a socket is
bound to the given key, otherwise the flags value XDP_ABORTED. `bound` says
which xsk_map slots have a socket. -/
def bpf_redirect_map (bound : Nat → Bool) (key : Nat) : Nat :=
  if bound key then XDP_REDIRECT else XDP_ABORTED

/-- xdp_firewall (xdp_filter.c lines 48-89). Bounds-check the Ethernet
header (14 bytes); non-IPv4 ethertype passes; bounds-check the IPv4 header
(20 more bytes); ICMP drops; TCP bumps REDIRECT and calls bpf_redirect_map
with the hardcoded queue_id 0; everything else passes. -/
def xdp_firewall (ctx : XdpMd) (bound : Nat → Bool) (stats : Nat → Nat) : XdpOut :=
  let queue_id := 0
  if ctx.frame.length < 14 then
    { action := XDP_ABORTED, stats := update_stats stats STAT_ERROR, redirected := none }
  else if be16 ctx.frame 12 ≠ ETH_P_IP then
    { action := XDP_PASS, stats := update_stats stats STAT_PASS, redirected := none }
  else if ctx.frame.length < 34 then
    { action := XDP_ABORTED, stats := update_stats stats STAT_ERROR, redirected := none }
  else if byteAt ctx.frame 23 = IPPROTO_ICMP then
    { action := XDP_DROP, stats := update_stats stats STAT_DROP, redirected := none }
  else if byteAt ctx.frame 23 = IPPROTO_TCP then
    { action := bpf_redirect_map bound queue_id,
      stats := update_stats stats STAT_REDIRECT, redirected := some queue_id }
  else
    { action := XDP_PASS, stats := update_stats stats STAT_PASS, redirected := none }

/-- Counter k was incremented by one (with u64 wrap) and every other counter
is unchanged. -/
def StatsBumped (old new : Nat → Nat) (k : Nat) : Prop :=
  new k = (old k + 1) % U64_MOD ∧ ∀ j, j ≠ k → new j = old j

/-- Helper: update_stats with an in-range key bumps exactly that counter. -/
theorem update_stats_bumps (stats : Nat → Nat) (key : Nat) (h : key < 4) :
    StatsBumped stats (update_stats stats key) key := by
  constructor
  · simp [update_stats, h]
  · intro j hj
    simp [update_stats, h, hj]

/-- Concrete 34-byte frame: Ethernet ethertype IPv4, IP protocol ICMP. -/
def icmpFrame : List Nat :=
  List.replicate 12 0 ++ [8, 0] ++ List.replicate 9 0 ++ [1] ++ List.replicate 10 0

/-- Concrete 34-byte frame: Ethernet ethertype IPv4, IP protocol TCP. -/
def tcpFrame : List Nat :=
  List.replicate 12 0 ++ [8, 0] ++ List.replicate 9 0 ++ [6] ++ List.replicate 10 0

/-- C1: xdp_firewall returns exactly one verdict determined by the headers:
a frame too short for an Ethernet header, or IPv4 but too short for an IPv4
header, yields ABORTED with the ERROR counter bumped; non-IPv4 ethertype
yields PASS with PASS bumped; IPv4 ICMP yields DROP with DROP bumped; IPv4
TCP bumps REDIRECT (for any binding state, i.e. regardless of redirect
success) and issues the redirect call; any other IPv4 protocol yields PASS
with PASS bumped. -/
theorem xdp_firewall_verdict_cases (ctx : XdpMd) (bound : Nat → Bool) (stats : Nat → Nat) :
    (ctx.frame.length < 14 →
      (xdp_firewall ctx bound stats).action = XDP_ABORTED ∧
      StatsBumped stats (xdp_firewall ctx bound stats).stats STAT_ERROR ∧
      (xdp_firewall ctx bound stats).redirected = none) ∧
    (14 ≤ ctx.frame.length → be16 ctx.frame 12 ≠ ETH_P_IP →
      (xdp_firewall ctx bound stats).action = XDP_PASS ∧
      StatsBumped stats (xdp_firewall ctx bound stats).stats STAT_PASS ∧
      (xdp_firewall ctx bound stats).redirected = none) ∧
    (14 ≤ ctx.frame.length → be16 ctx.frame 12 = ETH_P_IP → ctx.frame.length < 34 →
      (xdp_firewall ctx bound stats).action = XDP_ABORTED ∧
      StatsBumped stats (xdp_firewall ctx bound stats).stats STAT_ERROR ∧
      (xdp_firewall ctx bound stats).redirected = none) ∧
    (be16 ctx.frame 12 = ETH_P_IP → 34 ≤ ctx.frame.length →
      byteAt ctx.frame 23 = IPPROTO_ICMP →
      (xdp_firewall ctx bound stats).action = XDP_DROP ∧
      StatsBumped stats (xdp_firewall ctx bound stats).stats STAT_DROP ∧
      (xdp_firewall ctx bound stats).redirected = none) ∧
    (be16 ctx.frame 12 = ETH_P_IP → 34 ≤ ctx.frame.length →
      byteAt ctx.frame 23 = IPPROTO_TCP →
      (xdp_firewall ctx bound stats).action = bpf_redirect_map bound 0 ∧
      StatsBumped stats (xdp_firewall ctx bound stats).stats STAT_REDIRECT ∧
      (xdp_firewall ctx bound stats).redirected = some 0) ∧
    (be16 ctx.frame 12 = ETH_P_IP → 34 ≤ ctx.frame.length →
      byteAt ctx.frame 23 ≠ IPPROTO_ICMP → byteAt ctx.frame 23 ≠ IPPROTO_TCP →
      (xdp_firewall ctx bound stats).action = XDP_PASS ∧
      StatsBumped stats (xdp_firewall ctx bound stats).stats STAT_PASS ∧
      (xdp_firewall ctx bound stats).redirected = none) := by
  refine ⟨?_, ?_, ?_, ?_, ?_, ?_⟩
  · intro h
    simp only [xdp_firewall, if_pos h]
    exact ⟨by trivial, update_stats_bumps stats STAT_ERROR (by decide), by trivial⟩
  · intro h1 h2
    have h1n : ¬ ctx.frame.length < 14 := by omega
    simp only [xdp_firewall, if_neg h1n, if_pos h2]
    exact ⟨by trivial, update_stats_bumps stats STAT_PASS (by decide), by trivial⟩
  · intro h1 h2 h3
    have h1n : ¬ ctx.frame.length < 14 := by omega
    have h2n : ¬ be16 ctx.frame 12 ≠ ETH_P_IP := by simp [h2]
    simp only [xdp_firewall, if_neg h1n, if_neg h2n, if_pos h3]
    exact ⟨by trivial, update_stats_bumps stats STAT_ERROR (by decide), by trivial⟩
  · intro h2 h3 h4
    have h1n : ¬ ctx.frame.length < 14 := by omega
    have h2n : ¬ be16 ctx.frame 12 ≠ ETH_P_IP := by simp [h2]
    have h3n : ¬ ctx.frame.length < 34 := by omega
    simp only [xdp_firewall, if_neg h1n, if_neg h2n, if_neg h3n, if_pos h4]
    exact ⟨by trivial, update_stats_bumps stats STAT_DROP (by decide), by trivial⟩
  · intro h2 h3 h4
    have h1n : ¬ ctx.frame.length < 14 := by omega
    have h2n : ¬ be16 ctx.frame 12 ≠ ETH_P_IP := by simp [h2]
    have h3n : ¬ ctx.frame.length < 34 := by omega
    have h4n : ¬ byteAt ctx.frame 23 = IPPROTO_ICMP := by
      simp [h4, IPPROTO_TCP, IPPROTO_ICMP]
    simp only [xdp_firewall, if_neg h1n, if_neg h2n, if_neg h3n, if_neg h4n, if_pos h4]
    exact ⟨by trivial, update_stats_bumps stats STAT_REDIRECT (by decide), by trivial⟩
  · intro h2 h3 h4 h5
    have h1n : ¬ ctx.frame.length < 14 := by omega
    have h2n : ¬ be16 ctx.frame 12 ≠ ETH_P_IP := by simp [h2]
    have h3n : ¬ ctx.frame.length < 34 := by omega
    simp only [xdp_firewall, if_neg h1n, if_neg h2n, if_neg h3n, if_neg h4, if_neg h5]
    exact ⟨by trivial, update_stats_bumps stats STAT_PASS (by decide), by trivial⟩

/-- Witness for C1: on a concrete IPv4 ICMP frame the classifier drops and
bumps exactly the DROP counter. -/
theorem xdp_firewall_verdict_cases_witness :
    be16 icmpFrame 12 = ETH_P_IP ∧ 34 ≤ icmpFrame.length ∧
    byteAt icmpFrame 23 = IPPROTO_ICMP ∧
    ((xdp_firewall ⟨icmpFrame, 0⟩ (fun _ => false) (fun _ => 0)).action = XDP_DROP ∧
      StatsBumped (fun _ => 0)
        (xdp_firewall ⟨icmpFrame, 0⟩ (fun _ => false) (fun _ => 0)).stats STAT_DROP ∧
      (xdp_firewall ⟨icmpFrame, 0⟩ (fun _ => false) (fun _ => 0)).redirected = none) :=
  ⟨by decide, by decide, by decide,
   (xdp_firewall_verdict_cases ⟨icmpFrame, 0⟩ (fun _ => false) (fun _ => 0)).2.2.2.1
     (by decide) (by decide) (by decide)⟩

/-- C2 counterexample: a TCP frame arriving on rx queue 1 is redirected with
xsk_map key 0, not with its rx_queue_index. -/
theorem xdp_redirect_rx_queue_counterexample :
    (XdpMd.mk tcpFrame 1).rx_queue_index = 1 ∧
    (xdp_firewall ⟨tcpFrame, 1⟩ (fun _ => true) (fun _ => 0)).redirected = some 0 ∧
    (some 0 : Option Nat) ≠ some 1 := by
  refine ⟨rfl, ?_, by decide⟩
  decide

/-- C2 amended: for every IPv4 TCP frame the redirect into xsk_map uses the
hardcoded key 0 (the compile-time default queue), regardless of the frame's
rx_queue_index. -/
theorem xdp_redirect_uses_queue_zero (ctx : XdpMd) (bound : Nat → Bool) (stats : Nat → Nat)
    (h2 : be16 ctx.frame 12 = ETH_P_IP) (h3 : 34 ≤ ctx.frame.length)
    (h4 : byteAt ctx.frame 23 = IPPROTO_TCP) :
    (xdp_firewall ctx bound stats).redirected = some 0 ∧
    (xdp_firewall ctx bound stats).action = bpf_redirect_map bound 0 := by
  have h1n : ¬ ctx.frame.length < 14 := by omega
  have h2n : ¬ be16 ctx.frame 12 ≠ ETH_P_IP := by simp [h2]
  have h3n : ¬ ctx.frame.length < 34 := by omega
  have h4n : ¬ byteAt ctx.frame 23 = IPPROTO_ICMP := by
    simp [h4, IPPROTO_TCP, IPPROTO_ICMP]
  simp only [xdp_firewall, if_neg h1n, if_neg h2n, if_neg h3n, if_neg h4n, if_pos h4]
  exact ⟨by trivial, by trivial⟩

/-- Witness for the amended C2 on a concrete TCP frame with rx queue 1. -/
theorem xdp_redirect_uses_queue_zero_witness :
    be16 tcpFrame 12 = ETH_P_IP ∧ 34 ≤ tcpFrame.length ∧
    byteAt tcpFrame 23 = IPPROTO_TCP ∧
    (xdp_firewall ⟨tcpFrame, 1⟩ (fun _ => true) (fun _ => 0)).redirected = some 0 :=
  ⟨by decide, by decide, by decide,
   (xdp_redirect_uses_queue_zero ⟨tcpFrame, 1⟩ (fun _ => true) (fun _ => 0)
     (by decide) (by decide) (by decide)).1⟩

/-- C8: every xdp_firewall run bumps exactly one of the four counters
PASS, DROP, REDIRECT, ERROR, each by exactly one (u64 wrap), leaving the
others unchanged. -/
theorem xdp_firewall_exactly_one_counter (ctx : XdpMd) (bound : Nat → Bool)
    (stats : Nat → Nat) :
    ∃ k, k < 4 ∧ StatsBumped stats (xdp_firewall ctx bound stats).stats k := by
  simp only [xdp_firewall]
  split_ifs
  · exact ⟨STAT_ERROR, by decide, update_stats_bumps stats STAT_ERROR (by decide)⟩
  · exact ⟨STAT_PASS, by decide, update_stats_bumps stats STAT_PASS (by decide)⟩
  · exact ⟨STAT_ERROR, by decide, update_stats_bumps stats STAT_ERROR (by decide)⟩
  · exact ⟨STAT_DROP, by decide, update_stats_bumps stats STAT_DROP (by decide)⟩
  · exact ⟨STAT_REDIRECT, by decide, update_stats_bumps stats STAT_REDIRECT (by decide)⟩
  · exact ⟨STAT_PASS, by decide, update_stats_bumps stats STAT_PASS (by decide)⟩

end Xdp

namespace Classify

/-! Embedding of src/vpp/plugins/ebpf_classify.c. -/

/-- Graph-node next index EBPF_CLASSIFY_NEXT_DROP (error-drop). -/
def EBPF_CLASSIFY_NEXT_DROP : Nat := 0

/-- Graph-node next index EBPF_CLASSIFY_NEXT_IP4_LOOKUP (ip4-lookup). -/
def EBPF_CLASSIFY_NEXT_IP4_LOOKUP : Nat := 1

/-- Graph-node next index EBPF_CLASSIFY_NEXT_IP6_LOOKUP (ip6-lookup). -/
def EBPF_CLASSIFY_NEXT_IP6_LOOKUP : Nat := 2

/-- Graph-node next index EBPF_CLASSIFY_NEXT_ETHERNET_INPUT (ethernet-input). -/
def EBPF_CLASSIFY_NEXT_ETHERNET_INPUT : Nat := 3

/-- Ethertype for IPv4 (ETHERNET_TYPE_IP4). -/
def ETHERNET_TYPE_IP4 : Nat := 0x0800

/-- IP protocol number for TCP. -/
def IP_PROTOCOL_TCP : Nat := 6

/-- IP protocol number for UDP. -/
def IP_PROTOCOL_UDP : Nat := 17

/-- Lookup key shared by acl_v4 and the session map: the packed 5-tuple
(src_ip, dst_ip, src_port, dst_port, protocol). -/
structure FlowKey where
  src_ip : Nat
  dst_ip : Nat
  src_port : Nat
  dst_port : Nat
  protocol : Nat
  deriving DecidableEq

/-- acl_rule_t (ebpf_classify.c lines 46-54). -/
structure AclRule where
  src_ip : Nat
  dst_ip : Nat
  src_port : Nat
  dst_port : Nat
  protocol : Nat
  action : Nat
  priority : Nat
  deriving DecidableEq

/-- session_entry_t (ebpf_classify.c lines 57-67). -/
structure SessionEntry where
  src_ip : Nat
  dst_ip : Nat
  src_port : Nat
  dst_port : Nat
  protocol : Nat
  state : Nat
  last_seen : Nat
  bytes_rx : Nat
  bytes_tx : Nat
  deriving DecidableEq

/-- ebpf_stats_t (ebpf_classify.c lines 70-78): the value stored at key 0 of
the shared stats map. -/
structure EbpfStats where
  packets_processed : Nat
  packets_dropped : Nat
  packets_allowed : Nat
  map_lookups : Nat
  map_hits : Nat
  sessions_created : Nat
  sessions_deleted : Nat
  deriving DecidableEq

/-- A pinned BPF hash map, as the partial function observed through
bpf_map_lookup_elem. -/
abbrev BpfMap (α : Type) := FlowKey → Option α

/-- bpf_map_update_elem with BPF_ANY: insert or replace the value at key. -/
def bpf_map_update_elem {α : Type} (m : BpfMap α) (k : FlowKey) (v : α) : BpfMap α :=
  fun j => if j = k then some v else m j

/-- lookup_acl_rule (ebpf_classify.c lines 147-179): look the 5-tuple up in
the shared acl map, and bump map_lookups (and map_hits on a hit) in the
shared stats map; the stats lookup at key 0 always succeeds. Returns the
rule found (if any) and the new shared stats. -/
def lookup_acl_rule (acl : BpfMap AclRule) (stats : EbpfStats)
    (src_ip dst_ip src_port dst_port protocol : Nat) : Option AclRule × EbpfStats :=
  let key : FlowKey := ⟨src_ip, dst_ip, src_port, dst_port, protocol⟩
  let ret := acl key
  (ret,
   { stats with
     map_lookups := (stats.map_lookups + 1) % U64_MOD,
     map_hits := if ret.isSome then (stats.map_hits + 1) % U64_MOD else stats.map_hits })

/-- update_session (ebpf_classify.c lines 181-223). No-op unless stateful
mode; otherwise on a hit refresh last_seen and accumulate bytes_rx (u64
wrap), on a miss build a fresh record with state 1, then write it back with
BPF_ANY. `now` is the value of vlib_time_now. -/
def update_session (stateful_mode : Bool) (sessions : BpfMap SessionEntry)
    (src_ip dst_ip src_port dst_port protocol : Nat) (packet_len now : Nat) :
    BpfMap SessionEntry :=
  if !stateful_mode then sessions
  else
    let key : FlowKey := ⟨src_ip, dst_ip, src_port, dst_port, protocol⟩
    let session :=
      match sessions key with
      | some s => { s with last_seen := now, bytes_rx := (s.bytes_rx + packet_len) % U64_MOD }
      | none =>
        { src_ip := src_ip, dst_ip := dst_ip, src_port := src_port, dst_port := dst_port,
          protocol := protocol, state := 1, last_seen := now,
          bytes_rx := packet_len, bytes_tx := 0 }
    bpf_map_update_elem sessions key session

/-- State touched by the classifier node: the shared maps opened by the
plugin, its configuration, and the per-invocation local counters of
ebpf_classify_node_fn. -/
structure ClassifyMain where
  acl : BpfMap AclRule
  shared_stats : EbpfStats
  sessions : BpfMap SessionEntry
  stateful_mode : Bool
  pkts_processed : Nat
  pkts_dropped : Nat

/-- Five-tuple extracted from a buffer by ebpf_classify_node_fn (lines
271-284): addresses and protocol from the IPv4 header at offset 14, ports
from offset 34 when the protocol is TCP or UDP and the chain is long
enough, 0 otherwise. -/
def flow_key_of (buf : List Nat) : FlowKey :=
  let protocol := byteAt buf 23
  let ports :=
    if protocol = IP_PROTOCOL_TCP ∨ protocol = IP_PROTOCOL_UDP then
      if 38 ≤ buf.length then (be16 buf 34, be16 buf 36) else (0, 0)
    else (0, 0)
  ⟨be32 buf 26, be32 buf 30, ports.1, ports.2, protocol⟩

/-- One iteration of the per-buffer loop of ebpf_classify_node_fn (lines
243-320): returns the chosen next index and the updated state. The buffer
is the byte content at the current data pointer (Ethernet header first);
`now` is the value of vlib_time_now during this iteration. -/
def classify_buffer (st : ClassifyMain) (buf : List Nat) (now : Nat) : Nat × ClassifyMain :=
  if be16 buf 12 = ETHERNET_TYPE_IP4 then
    if 34 ≤ buf.length then
      let protocol := byteAt buf 23
      let ports :=
        if protocol = IP_PROTOCOL_TCP ∨ protocol = IP_PROTOCOL_UDP then
          if 38 ≤ buf.length then (be16 buf 34, be16 buf 36) else (0, 0)
        else (0, 0)
      let lr := lookup_acl_rule st.acl st.shared_stats
        (be32 buf 26) (be32 buf 30) ports.1 ports.2 protocol
      let st2 : ClassifyMain := { st with shared_stats := lr.2 }
      match lr.1 with
      | some rule =>
        if rule.action = 0 then
          (EBPF_CLASSIFY_NEXT_DROP, { st2 with pkts_dropped := st2.pkts_dropped + 1 })
        else if rule.action = 1 then
          (EBPF_CLASSIFY_NEXT_IP4_LOOKUP,
           { st2 with
             sessions := update_session st2.stateful_mode st2.sessions
               (be32 buf 26) (be32 buf 30) ports.1 ports.2 protocol
               buf.length now,
             pkts_processed := st2.pkts_processed + 1 })
        else (EBPF_CLASSIFY_NEXT_IP4_LOOKUP, st2)
      | none =>
        (EBPF_CLASSIFY_NEXT_IP4_LOOKUP, { st2 with pkts_processed := st2.pkts_processed + 1 })
    else
      (EBPF_CLASSIFY_NEXT_DROP, st)
  else
    (EBPF_CLASSIFY_NEXT_IP4_LOOKUP, st)

/-- Empty-map plugin state with stateful mode enabled (the init default). -/
def classifyInit : ClassifyMain :=
  { acl := fun _ => none, shared_stats := ⟨0, 0, 0, 0, 0, 0, 0⟩,
    sessions := fun _ => none, stateful_mode := true,
    pkts_processed := 0, pkts_dropped := 0 }

/-- Concrete 42-byte Ethernet+IPv4+TCP buffer: 10.0.0.1 to 10.0.0.2,
source port 5000, destination port 80. -/
def tcpBuf : List Nat :=
  List.replicate 12 0 ++ [8, 0] ++ List.replicate 9 0 ++ [6] ++ List.replicate 2 0 ++
    [10, 0, 0, 1, 10, 0, 0, 2, 19, 136, 0, 80] ++ List.replicate 4 0

/-- Concrete non-IPv4 (ARP, ethertype 0x0806) buffer. -/
def arpBuf : List Nat :=
  List.replicate 12 0 ++ [8, 6] ++ List.replicate 28 0

/-- C3 counterexample: with stateful mode on, processing the same TCP
buffer twice against an empty ACL (miss, default allow) creates no session
row at all: the lookup at the buffer's 5-tuple still misses, against the
claim that one row with summed bytes_rx exists. -/
theorem acl_miss_no_session_counterexample :
    (classify_buffer classifyInit tcpBuf 10).1 = EBPF_CLASSIFY_NEXT_IP4_LOOKUP ∧
    (classify_buffer (classify_buffer classifyInit tcpBuf 10).2 tcpBuf 20).1 =
      EBPF_CLASSIFY_NEXT_IP4_LOOKUP ∧
    (classify_buffer (classify_buffer classifyInit tcpBuf 10).2 tcpBuf 20).2.sessions
      (flow_key_of tcpBuf) = none := by
  refine ⟨by decide, by decide, by decide⟩

/-- C3 amended: on an ACL miss over an IPv4 buffer the classifier takes the
default-allow path but never touches the session table; in particular two
TCP frames with an identical unmatched 5-tuple leave the session table
without any row for that 5-tuple. -/
theorem acl_miss_leaves_sessions (st : ClassifyMain) (buf : List Nat) (now : Nat)
    (hip : be16 buf 12 = ETHERNET_TYPE_IP4) (hlen : 34 ≤ buf.length)
    (hmiss : st.acl (flow_key_of buf) = none) :
    (classify_buffer st buf now).2.sessions = st.sessions ∧
    (classify_buffer st buf now).1 = EBPF_CLASSIFY_NEXT_IP4_LOOKUP ∧
    (classify_buffer st buf now).2.pkts_processed = st.pkts_processed + 1 := by
  have hmiss2 : st.acl
      ⟨be32 buf 26, be32 buf 30,
       (if byteAt buf 23 = IP_PROTOCOL_TCP ∨ byteAt buf 23 = IP_PROTOCOL_UDP then
          if 38 ≤ buf.length then (be16 buf 34, be16 buf 36) else (0, 0)
        else (0, 0)).1,
       (if byteAt buf 23 = IP_PROTOCOL_TCP ∨ byteAt buf 23 = IP_PROTOCOL_UDP then
          if 38 ≤ buf.length then (be16 buf 34, be16 buf 36) else (0, 0)
        else (0, 0)).2,
       byteAt buf 23⟩ = none := hmiss
  simp only [classify_buffer, lookup_acl_rule, if_pos hip, if_pos hlen]
  rw [hmiss2]
  refine ⟨?_, ?_, ?_⟩ <;> trivial

/-- Witness for the amended C3 on the concrete TCP buffer and empty ACL. -/
theorem acl_miss_leaves_sessions_witness :
    be16 tcpBuf 12 = ETHERNET_TYPE_IP4 ∧ 34 ≤ tcpBuf.length ∧
    classifyInit.acl (flow_key_of tcpBuf) = none ∧
    (classify_buffer classifyInit tcpBuf 10).2.sessions = classifyInit.sessions :=
  ⟨by decide, by decide, rfl,
   (acl_miss_leaves_sessions classifyInit tcpBuf 10 (by decide) (by decide) rfl).1⟩

/-- C4 counterexample: a miss-path insert writes state 1, not NEW(0): at a
concrete 5-tuple and empty session table the inserted record's state is 1. -/
theorem update_session_new_state_counterexample :
    ((update_session true (fun _ => none) 1 2 3 4 6 100 50 ⟨1, 2, 3, 4, 6⟩).map
        SessionEntry.state = some 1) ∧
    ¬ ((update_session true (fun _ => none) 1 2 3 4 6 100 50 ⟨1, 2, 3, 4, 6⟩).map
        SessionEntry.state = some 0) := by
  refine ⟨by decide, by decide⟩

/-- C4 amended: with stateful mode enabled, update_session on a hit rewrites
the record with last_seen = now and bytes_rx increased by packet_len (u64
wrap), leaving 5-tuple, state and bytes_tx unchanged; on a miss it inserts a
record carrying the key's 5-tuple with state = 1 (not NEW(0)),
last_seen = now, bytes_rx = packet_len, bytes_tx = 0. -/
theorem update_session_spec (sessions : BpfMap SessionEntry)
    (src_ip dst_ip src_port dst_port protocol packet_len now : Nat) :
    (∀ s, sessions ⟨src_ip, dst_ip, src_port, dst_port, protocol⟩ = some s →
      update_session true sessions src_ip dst_ip src_port dst_port protocol packet_len now
          ⟨src_ip, dst_ip, src_port, dst_port, protocol⟩ =
        some { s with last_seen := now, bytes_rx := (s.bytes_rx + packet_len) % U64_MOD }) ∧
    (sessions ⟨src_ip, dst_ip, src_port, dst_port, protocol⟩ = none →
      update_session true sessions src_ip dst_ip src_port dst_port protocol packet_len now
          ⟨src_ip, dst_ip, src_port, dst_port, protocol⟩ =
        some { src_ip := src_ip, dst_ip := dst_ip, src_port := src_port,
               dst_port := dst_port, protocol := protocol, state := 1,
               last_seen := now, bytes_rx := packet_len, bytes_tx := 0 }) := by
  constructor
  · intro s hs
    simp only [update_session, bpf_map_update_elem, Bool.not_true, Bool.false_eq_true,
      if_false, hs]
    simp
  · intro hn
    simp only [update_session, bpf_map_update_elem, Bool.not_true, Bool.false_eq_true,
      if_false, hn]
    simp

/-- Witness for the amended C4: miss-path insert at a concrete key. -/
theorem update_session_spec_witness :
    ((fun _ => none : BpfMap SessionEntry) ⟨1, 2, 3, 4, 6⟩ = none) ∧
    update_session true (fun _ => none) 1 2 3 4 6 100 50 ⟨1, 2, 3, 4, 6⟩ =
      some ⟨1, 2, 3, 4, 6, 1, 50, 100, 0⟩ :=
  ⟨rfl, (update_session_spec (fun _ => none) 1 2 3 4 6 100 50).2 rfl⟩

/-- C5 counterexample: a non-IPv4 (ARP) buffer is dispatched to ip4-lookup
(next index 1), not to ethernet-input (next index 3). -/
theorem non_ip4_next_counterexample :
    (classify_buffer classifyInit arpBuf 5).1 = EBPF_CLASSIFY_NEXT_IP4_LOOKUP ∧
    (classify_buffer classifyInit arpBuf 5).1 ≠ EBPF_CLASSIFY_NEXT_ETHERNET_INPUT := by
  refine ⟨by decide, by decide⟩

/-- C5 amended: the default next index is ip4-lookup, and a buffer whose
ethertype is not IPv4 keeps it: it is dispatched to IP4_LOOKUP with the
whole plugin state unchanged. -/
theorem non_ip4_goes_to_ip4_lookup (st : ClassifyMain) (buf : List Nat) (now : Nat)
    (h : be16 buf 12 ≠ ETHERNET_TYPE_IP4) :
    (classify_buffer st buf now).1 = EBPF_CLASSIFY_NEXT_IP4_LOOKUP ∧
    (classify_buffer st buf now).2 = st := by
  simp only [classify_buffer, if_neg h]
  refine ⟨?_, ?_⟩ <;> trivial

/-- Witness for the amended C5 on the concrete ARP buffer. -/
theorem non_ip4_goes_to_ip4_lookup_witness :
    be16 arpBuf 12 ≠ ETHERNET_TYPE_IP4 ∧
    (classify_buffer classifyInit arpBuf 5).1 = EBPF_CLASSIFY_NEXT_IP4_LOOKUP :=
  ⟨by decide, (non_ip4_goes_to_ip4_lookup classifyInit arpBuf 5 (by decide)).1⟩

end Classify

namespace Loader

/-! Embedding of the frame allocator of src/userspace/af_xdp_loader.c. -/

/-- UMEM_NUM_FRAMES. -/
def UMEM_NUM_FRAMES : Nat := 4096

/-- FRAME_SIZE in bytes. -/
def FRAME_SIZE : Nat := 2048

/-- INVALID_UMEM_FRAME, the sentinel UINT64_MAX. -/
def INVALID_UMEM_FRAME : Nat := 2 ^ 64 - 1

/-- Free-frame allocator portion of struct xsk_socket_info: the
umem_frame_addr array (as a function from slot index to stored address) and
the umem_frame_free count. -/
structure XskSocketInfo where
  umem_frame_addr : Nat → Nat
  umem_frame_free : Nat

/-- xsk_alloc_umem_frame (af_xdp_loader.c lines 115-123): on an empty free
list return the INVALID sentinel and leave the state alone; otherwise pop
the top slot, overwrite it with the sentinel, and decrement the count.
Returns the popped address and the new state. -/
def xsk_alloc_umem_frame (xsk : XskSocketInfo) : Nat × XskSocketInfo :=
  if xsk.umem_frame_free = 0 then (INVALID_UMEM_FRAME, xsk)
  else
    let top := xsk.umem_frame_free - 1
    let frame := xsk.umem_frame_addr top
    (frame,
     { umem_frame_addr := fun i => if i = top then INVALID_UMEM_FRAME else xsk.umem_frame_addr i,
       umem_frame_free := top })

/-- xsk_free_umem_frame (af_xdp_loader.c lines 125-131): when the free list
already holds UMEM_NUM_FRAMES entries, log the overflow diagnostic and
return with the state unchanged (the Bool records that the diagnostic was
emitted); otherwise push the address and increment the count. -/
def xsk_free_umem_frame (xsk : XskSocketInfo) (frame : Nat) : XskSocketInfo × Bool :=
  if UMEM_NUM_FRAMES ≤ xsk.umem_frame_free then (xsk, true)
  else
    ({ umem_frame_addr := fun i => if i = xsk.umem_frame_free then frame else xsk.umem_frame_addr i,
       umem_frame_free := xsk.umem_frame_free + 1 }, false)

/-- Frame-allocator initialization of xsk_configure_socket (af_xdp_loader.c
lines 254-258): slot i holds address i * FRAME_SIZE and the free count is
UMEM_NUM_FRAMES (the array has exactly UMEM_NUM_FRAMES slots; reads past it
do not occur and are mapped to 0). -/
def xsk_init_frames : XskSocketInfo :=
  { umem_frame_addr := fun i => if i < UMEM_NUM_FRAMES then i * FRAME_SIZE else 0,
    umem_frame_free := UMEM_NUM_FRAMES }

/-- C6 counterexample: with the free list full (the post-configuration
state), xsk_free_umem_frame logs the diagnostic and returns with the state
unchanged, and the allocator keeps working afterwards (the next alloc still
pops a valid frame) — the program does not terminate. -/
theorem free_frame_overflow_counterexample :
    xsk_free_umem_frame xsk_init_frames 0 = (xsk_init_frames, true) ∧
    (xsk_alloc_umem_frame (xsk_free_umem_frame xsk_init_frames 0).1).1 = 4095 * FRAME_SIZE := by
  constructor
  · rfl
  · rfl

/-- C6 amended: calling free_frame when the free list already holds
NUM_FRAMES entries emits the overflow diagnostic and returns leaving the
allocator state unchanged (the frame is abandoned); execution continues. -/
theorem free_frame_overflow_is_nonfatal (xsk : XskSocketInfo) (frame : Nat)
    (h : UMEM_NUM_FRAMES ≤ xsk.umem_frame_free) :
    xsk_free_umem_frame xsk frame = (xsk, true) := by
  simp only [xsk_free_umem_frame, if_pos h]

/-- Witness for the amended C6 at the full post-configuration state. -/
theorem free_frame_overflow_is_nonfatal_witness :
    UMEM_NUM_FRAMES ≤ xsk_init_frames.umem_frame_free ∧
    xsk_free_umem_frame xsk_init_frames 7 = (xsk_init_frames, true) :=
  ⟨by decide, free_frame_overflow_is_nonfatal xsk_init_frames 7 (by decide)⟩

/-- C7: after socket configuration the free stack holds exactly NUM_FRAMES
entries with addresses 0, FRAME_SIZE, ..., (NUM_FRAMES-1)*FRAME_SIZE;
alloc on a non-empty list returns the top slot's address, invalidates that
slot and decrements the count by one; alloc on an empty list returns the
INVALID sentinel and leaves the state unchanged. -/
theorem allocator_init_and_alloc_spec :
    (xsk_init_frames.umem_frame_free = UMEM_NUM_FRAMES ∧
      ∀ i, i < UMEM_NUM_FRAMES → xsk_init_frames.umem_frame_addr i = i * FRAME_SIZE) ∧
    (∀ xsk : XskSocketInfo, xsk.umem_frame_free ≠ 0 →
      (xsk_alloc_umem_frame xsk).1 = xsk.umem_frame_addr (xsk.umem_frame_free - 1) ∧
      (xsk_alloc_umem_frame xsk).2.umem_frame_free = xsk.umem_frame_free - 1 ∧
      (xsk_alloc_umem_frame xsk).2.umem_frame_addr (xsk.umem_frame_free - 1) =
        INVALID_UMEM_FRAME) ∧
    (∀ xsk : XskSocketInfo, xsk.umem_frame_free = 0 →
      xsk_alloc_umem_frame xsk = (INVALID_UMEM_FRAME, xsk)) := by
  refine ⟨⟨rfl, ?_⟩, ?_, ?_⟩
  · intro i hi
    simp [xsk_init_frames, hi]
  · intro xsk h
    simp only [xsk_alloc_umem_frame, if_neg h]
    refine ⟨by trivial, by trivial, by simp⟩
  · intro xsk h
    simp only [xsk_alloc_umem_frame, if_pos h]

/-- Witness for C7: the first alloc after configuration returns the top
address (NUM_FRAMES-1)*FRAME_SIZE, and alloc on an emptied state returns
the sentinel. -/
theorem allocator_init_and_alloc_spec_witness :
    xsk_init_frames.umem_frame_free ≠ 0 ∧
    (xsk_alloc_umem_frame xsk_init_frames).1 =
      xsk_init_frames.umem_frame_addr (xsk_init_frames.umem_frame_free - 1) ∧
    (XskSocketInfo.mk (fun _ => 0) 0).umem_frame_free = 0 ∧
    xsk_alloc_umem_frame ⟨fun _ => 0, 0⟩ = (INVALID_UMEM_FRAME, ⟨fun _ => 0, 0⟩) :=
  ⟨by decide,
   (allocator_init_and_alloc_spec.2.1 xsk_init_frames (by decide)).1,
   rfl,
   allocator_init_and_alloc_spec.2.2 ⟨fun _ => 0, 0⟩ rfl⟩

/-- C9: the allocator is a LIFO stack: from any state whose free count is
strictly below NUM_FRAMES, free_frame(a) followed by alloc_frame returns
exactly a and restores the free count. -/
theorem free_then_alloc_roundtrip (xsk : XskSocketInfo) (a : Nat)
    (h : xsk.umem_frame_free < UMEM_NUM_FRAMES) :
    (xsk_alloc_umem_frame (xsk_free_umem_frame xsk a).1).1 = a ∧
    (xsk_alloc_umem_frame (xsk_free_umem_frame xsk a).1).2.umem_frame_free =
      xsk.umem_frame_free := by
  have hn : ¬ UMEM_NUM_FRAMES ≤ xsk.umem_frame_free := by omega
  simp only [xsk_free_umem_frame, if_neg hn]
  have hz : ¬ xsk.umem_frame_free + 1 = 0 := by omega
  simp only [xsk_alloc_umem_frame, hz]
  simp

/-- Witness for C9 at the empty allocator state with address 7. -/
theorem free_then_alloc_roundtrip_witness :
    (XskSocketInfo.mk (fun _ => 0) 0).umem_frame_free < UMEM_NUM_FRAMES ∧
    (xsk_alloc_umem_frame (xsk_free_umem_frame ⟨fun _ => 0, 0⟩ 7).1).1 = 7 :=
  ⟨by decide, (free_then_alloc_roundtrip ⟨fun _ => 0, 0⟩ 7 (by decide)).1⟩

end Loader

namespace HelloAcl

/-! Embedding of src/vpp/plugins/hello_acl.c. -/

/-- Next index HELLO_ACL_NEXT_INTERFACE_OUTPUT (interface-output). -/
def HELLO_ACL_NEXT_INTERFACE_OUTPUT : Nat := 0

/-- Next index HELLO_ACL_NEXT_DROP (error-drop). -/
def HELLO_ACL_NEXT_DROP : Nat := 1

/-- hello_acl_main_t: the per-interface enable vector and the three plugin
counters (u64). -/
structure HelloAclMain where
  is_enabled : List Bool
  packets_processed : Nat
  packets_allowed : Nat
  packets_logged : Nat

/-- One buffer as seen by the node: the receive interface index and the
bytes at the current data pointer, which on the ip4-unicast feature arc is
the IPv4 header. -/
structure HelloBuffer where
  sw_if_index : Nat
  bytes : List Nat

/-- Per-buffer body of hello_acl_inline (hello_acl.c lines 112-209):
next0 is initialized to INTERFACE_OUTPUT and never reassigned; disabled
interfaces and non-0x45 IPv4 headers jump straight to skip_processing; on
the IPv4 path a syslog record is emitted for ICMP, or for TCP with
destination port 22, 80 or 443. Returns (next0, logged this buffer). -/
def hello_acl_buffer (hm : HelloAclMain) (is_ip6 : Bool) (b : HelloBuffer) : Nat × Bool :=
  let next0 := HELLO_ACL_NEXT_INTERFACE_OUTPUT
  if hm.is_enabled.length ≤ b.sw_if_index ∨ hm.is_enabled.getD b.sw_if_index false = false then
    (next0, false)
  else if !is_ip6 then
    if byteAt b.bytes 0 ≠ 0x45 then (next0, false)
    else if byteAt b.bytes 9 = 1 ∨
        (byteAt b.bytes 9 = 6 ∧
          (be16 b.bytes 22 = 22 ∨ be16 b.bytes 22 = 80 ∨ be16 b.bytes 22 = 443)) then
      (next0, true)
    else (next0, false)
  else (next0, false)

/-- hello_acl_inline over one frame (vector of buffers): every buffer
contributes pkts_processed++ and pkts_allowed++ at skip_processing, the
logged buffers contribute pkts_logged++, and the accumulated counts are
added to the plugin counters (u64 wrap) after the loop. Returns the chosen
next index of each buffer and the updated plugin state. -/
def hello_acl_inline (hm : HelloAclMain) (is_ip6 : Bool) (bufs : List HelloBuffer) :
    List Nat × HelloAclMain :=
  let results := bufs.map (hello_acl_buffer hm is_ip6)
  let pkts_processed := bufs.length
  let pkts_allowed := bufs.length
  let pkts_logged := (results.filter (fun r => r.2)).length
  (results.map (fun r => r.1),
   { hm with
     packets_processed := (hm.packets_processed + pkts_processed) % U64_MOD,
     packets_allowed := (hm.packets_allowed + pkts_allowed) % U64_MOD,
     packets_logged := (hm.packets_logged + pkts_logged) % U64_MOD })

/-- Helper: every branch of the per-buffer body chooses INTERFACE_OUTPUT. -/
theorem hello_acl_buffer_next (hm : HelloAclMain) (is_ip6 : Bool) (b : HelloBuffer) :
    (hello_acl_buffer hm is_ip6 b).1 = HELLO_ACL_NEXT_INTERFACE_OUTPUT := by
  unfold hello_acl_buffer
  split_ifs <;> rfl

/-- C10: the hello-acl node never drops: every buffer of every invocation
is dispatched to INTERFACE_OUTPUT, both packets_processed and
packets_allowed grow by the number of buffers, and the invariant
packets_processed = packets_allowed is preserved across every invocation. -/
theorem hello_acl_never_drops (hm : HelloAclMain) (is_ip6 : Bool) (bufs : List HelloBuffer) :
    (∀ n ∈ (hello_acl_inline hm is_ip6 bufs).1, n = HELLO_ACL_NEXT_INTERFACE_OUTPUT) ∧
    (hello_acl_inline hm is_ip6 bufs).2.packets_processed =
      (hm.packets_processed + bufs.length) % U64_MOD ∧
    (hello_acl_inline hm is_ip6 bufs).2.packets_allowed =
      (hm.packets_allowed + bufs.length) % U64_MOD ∧
    (hm.packets_processed = hm.packets_allowed →
      (hello_acl_inline hm is_ip6 bufs).2.packets_processed =
        (hello_acl_inline hm is_ip6 bufs).2.packets_allowed) := by
  refine ⟨?_, rfl, rfl, ?_⟩
  · intro n hn
    simp only [hello_acl_inline, List.map_map, List.mem_map] at hn
    obtain ⟨b, _, hb⟩ := hn
    rw [← hb]
    exact hello_acl_buffer_next hm is_ip6 b
  · intro h
    simp only [hello_acl_inline, h]

/-- Witness for C10: one enabled-interface ICMP buffer preserves the
processed = allowed invariant. -/
theorem hello_acl_never_drops_witness :
    (HelloAclMain.mk [true] 0 0 0).packets_processed =
      (HelloAclMain.mk [true] 0 0 0).packets_allowed ∧
    (hello_acl_inline ⟨[true], 0, 0, 0⟩ false [⟨0, [0x45, 0, 0, 28, 0, 0, 0, 0, 64, 1]⟩]).2.packets_processed =
      (hello_acl_inline ⟨[true], 0, 0, 0⟩ false [⟨0, [0x45, 0, 0, 28, 0, 0, 0, 0, 64, 1]⟩]).2.packets_allowed :=
  ⟨rfl,
   (hello_acl_never_drops ⟨[true], 0, 0, 0⟩ false [⟨0, [0x45, 0, 0, 28, 0, 0, 0, 0, 64, 1]⟩]).2.2.2 rfl⟩

end HelloAcl

end CerberusV
